import Mathlib

/-!
Shallow embedding of the two MediaPipe gesture calculators of this repository:

* `src/hand-gesture-recognition/hand-gesture-recognition-calculator.cc`
  (`HandGestureRecognitionCalculator::Process`), and
* `src/hand-mouvement-recognition/hand-mouvement-recognition-calculator.cc`
  (`HandMouvementRecognitionCalculator::Process`).

Float coordinates are modelled as rationals (`ℚ`); the transcendental helpers
(`std::sqrt`, `std::atan2`, `std::floor`) are modelled over the reals, with
`atan2 cross dot` rendered as `Complex.arg ⟨dot, cross⟩`, which has exactly the
C library's range `(-π, π]`.  Protobuf repeated-field access `landmark(i)` is
modelled as a total lookup returning the default landmark `(0, 0)` out of
range, and each calculator's `RET_CHECK` failure path is modelled with
`Except`.
-/

namespace Mediapipe

/-- Normalized 2-D landmark point (`mediapipe::NormalizedLandmark`): fields
`x()` and `y()`. -/
structure NormalizedLandmark where
  x : ℚ
  y : ℚ
  deriving DecidableEq

/-- Normalized bounding rectangle (`mediapipe::NormalizedRect`): fields
`x_center()`, `y_center()`, `width()`, `height()`. -/
structure NormalizedRect where
  x_center : ℚ
  y_center : ℚ
  width : ℚ
  height : ℚ
  deriving DecidableEq

/-- The `FingerState` enum of the hand-gesture calculator (spelling as in the
source: `UNKNOW`, `OPEN`, `CLOSE`). -/
inductive FingerState where
  | UNKNOW
  | OPEN
  | CLOSE
  deriving DecidableEq

/-- Protobuf repeated-field access `landmarkList.landmark(i)`, modelled as a
total lookup with default landmark `(0, 0)`. -/
def landmark (lms : List NormalizedLandmark) (i : ℕ) : NormalizedLandmark :=
  lms.getD i ⟨0, 0⟩

/-- `get_Euclidean_DistanceAB` of both calculators:
`sqrt(pow(a_x - b_x, 2) + pow(a_y - b_y, 2))`. -/
noncomputable def get_Euclidean_DistanceAB (a_x a_y b_x b_y : ℚ) : ℝ :=
  Real.sqrt (((a_x - b_x : ℚ) : ℝ) ^ 2 + ((a_y - b_y : ℚ) : ℝ) ^ 2)

/-- `isThumbNearFirstFinger`: Euclidean distance of the two landmarks is
below `0.1`. -/
noncomputable def isThumbNearFirstFinger (point1 point2 : NormalizedLandmark) : Prop :=
  get_Euclidean_DistanceAB point1.x point1.y point2.x point2.y < 0.1

noncomputable instance (point1 point2 : NormalizedLandmark) :
    Decidable (isThumbNearFirstFinger point1 point2) :=
  Real.decidableLT _ _

/-- The local constant `threshold = 0.01` of
`HandGestureRecognitionCalculator::Process` (used by the OPEN tests). -/
def threshold : ℚ := 0.01

/-- The local constant `closeFingerThreshold = 0.01` of
`HandGestureRecognitionCalculator::Process` (used by the CLOSE tests). -/
def closeFingerThreshold : ℚ := 0.01

/-- One finger-state block of `HandGestureRecognitionCalculator::Process`:
given the coordinate of the pivot joint (`pseudoFixKeyPoint`), the middle
joint and the tip joint along one finger chain, return `OPEN` when
`m + threshold < pseudoFixKeyPoint && t + threshold < m`, else `CLOSE` when
`pseudoFixKeyPoint + closeFingerThreshold < m && m + closeFingerThreshold < t`,
else `UNKNOW`.  The five per-finger blocks in the source are this code
repeated with the finger's three landmark coordinates substituted. -/
def fingerStateOf (pseudoFixKeyPoint m t : ℚ) : FingerState :=
  if m + threshold < pseudoFixKeyPoint ∧ t + threshold < m then FingerState.OPEN
  else if pseudoFixKeyPoint + closeFingerThreshold < m ∧ m + closeFingerThreshold < t then
    FingerState.CLOSE
  else FingerState.UNKNOW

/-- `thumbState`: landmarks 2, 3, 4, compared on the x coordinate. -/
def thumbState (lms : List NormalizedLandmark) : FingerState :=
  fingerStateOf (landmark lms 2).x (landmark lms 3).x (landmark lms 4).x

/-- `firstFingerState` (index finger): landmarks 6, 7, 8, y coordinate. -/
def firstFingerState (lms : List NormalizedLandmark) : FingerState :=
  fingerStateOf (landmark lms 6).y (landmark lms 7).y (landmark lms 8).y

/-- `secondFingerState` (middle finger): landmarks 10, 11, 12, y coordinate. -/
def secondFingerState (lms : List NormalizedLandmark) : FingerState :=
  fingerStateOf (landmark lms 10).y (landmark lms 11).y (landmark lms 12).y

/-- `thirdFingerState` (ring finger): landmarks 14, 15, 16, y coordinate. -/
def thirdFingerState (lms : List NormalizedLandmark) : FingerState :=
  fingerStateOf (landmark lms 14).y (landmark lms 15).y (landmark lms 16).y

/-- `fourthFingerState` (pinky): landmarks 18, 19, 20, y coordinate. -/
def fourthFingerState (lms : List NormalizedLandmark) : FingerState :=
  fingerStateOf (landmark lms 18).y (landmark lms 19).y (landmark lms 20).y

/-- The ordered first-match-wins gesture table of
`HandGestureRecognitionCalculator::Process` (lines 161-205 of the source),
including the `"TREE"` spelling and the `"___"` fallback sentinel used there. -/
noncomputable def recognizedHandGesture (lms : List NormalizedLandmark) : String :=
  if thumbState lms = FingerState.OPEN ∧ firstFingerState lms = FingerState.OPEN ∧
      secondFingerState lms = FingerState.OPEN ∧ thirdFingerState lms = FingerState.OPEN ∧
      fourthFingerState lms = FingerState.OPEN then "FIVE"
  else if thumbState lms = FingerState.CLOSE ∧ firstFingerState lms = FingerState.OPEN ∧
      secondFingerState lms = FingerState.OPEN ∧ thirdFingerState lms = FingerState.OPEN ∧
      fourthFingerState lms = FingerState.OPEN then "FOUR"
  else if thumbState lms = FingerState.OPEN ∧ firstFingerState lms = FingerState.OPEN ∧
      secondFingerState lms = FingerState.OPEN ∧ thirdFingerState lms = FingerState.CLOSE ∧
      fourthFingerState lms = FingerState.CLOSE then "TREE"
  else if thumbState lms = FingerState.OPEN ∧ firstFingerState lms = FingerState.OPEN ∧
      secondFingerState lms = FingerState.CLOSE ∧ thirdFingerState lms = FingerState.CLOSE ∧
      fourthFingerState lms = FingerState.CLOSE then "TWO"
  else if thumbState lms = FingerState.CLOSE ∧ firstFingerState lms = FingerState.OPEN ∧
      secondFingerState lms = FingerState.CLOSE ∧ thirdFingerState lms = FingerState.CLOSE ∧
      fourthFingerState lms = FingerState.CLOSE then "ONE"
  else if thumbState lms = FingerState.CLOSE ∧ firstFingerState lms = FingerState.OPEN ∧
      secondFingerState lms = FingerState.OPEN ∧ thirdFingerState lms = FingerState.CLOSE ∧
      fourthFingerState lms = FingerState.CLOSE then "YEAH"
  else if thumbState lms = FingerState.CLOSE ∧ firstFingerState lms = FingerState.OPEN ∧
      secondFingerState lms = FingerState.CLOSE ∧ thirdFingerState lms = FingerState.CLOSE ∧
      fourthFingerState lms = FingerState.OPEN then "ROCK"
  else if thumbState lms = FingerState.OPEN ∧ firstFingerState lms = FingerState.OPEN ∧
      secondFingerState lms = FingerState.CLOSE ∧ thirdFingerState lms = FingerState.CLOSE ∧
      fourthFingerState lms = FingerState.OPEN then "SPIDERMAN"
  else if thumbState lms = FingerState.CLOSE ∧ firstFingerState lms = FingerState.CLOSE ∧
      secondFingerState lms = FingerState.CLOSE ∧ thirdFingerState lms = FingerState.CLOSE ∧
      fourthFingerState lms = FingerState.CLOSE then "FIST"
  else if firstFingerState lms = FingerState.CLOSE ∧ secondFingerState lms = FingerState.OPEN ∧
      thirdFingerState lms = FingerState.OPEN ∧ fourthFingerState lms = FingerState.OPEN ∧
      isThumbNearFirstFinger (landmark lms 4) (landmark lms 8) then "OK"
  else "___"

/-- `HandGestureRecognitionCalculator::Process`: the presence gate on the
rectangle (`width < 0.01 || height < 0.01` short-circuits to `"___"`), then
`RET_CHECK_GT(landmarkList.landmark_size(), 0)` (the only failure path),
then the finger-state blocks and the gesture table. -/
noncomputable def hgrProcess (rect : NormalizedRect) (lms : List NormalizedLandmark) :
    Except String String :=
  if rect.width < 0.01 ∨ rect.height < 0.01 then Except.ok "___"
  else if 0 < lms.length then Except.ok (recognizedHandGesture lms)
  else Except.error "Input landmark vector is empty."

/-- Report whether an `Except` result is the error (`RET_CHECK` failure)
outcome. -/
def isError {ε α : Type} : Except ε α → Bool
  | Except.error _ => true
  | Except.ok _ => false

/-- The mutable fields of `HandMouvementRecognitionCalculator` together with
the per-calculator mediapipe frame counter obtained from
`cc->GetCounter(...)`.  A fresh session has every float field uninitialised;
the code distinguishes "history present" from "no history" purely by the
numeric truthiness of the stored floats, and a fresh session behaves as if
they were `0`.  (The declared field `previous_rectangle_width` is never read
or written by `Process` and is omitted.) -/
structure HMState where
  previous_x_center : ℚ
  previous_y_center : ℚ
  previous_angle : ℚ
  previous_rectangle_height : ℚ
  counter : ℕ
  deriving DecidableEq

/-- Fresh-session state: all history floats zero, frame counter zero. -/
def freshState : HMState := ⟨0, 0, 0, 0, 0⟩

/-- `getAngleABC(a_x, a_y, b_x, b_y, c_x, c_y)`: vectors `ab = b - a` and
`cb = b - c`, then `atan2(cross, dot)`, rendered as `Complex.arg ⟨dot, cross⟩`
(range `(-π, π]`, like the C library's `atan2`). -/
noncomputable def getAngleABC (a_x a_y b_x b_y c_x c_y : ℚ) : ℝ :=
  Complex.arg
    ⟨(((b_x - a_x) * (b_x - c_x) + (b_y - a_y) * (b_y - c_y) : ℚ) : ℝ),
     (((b_x - a_x) * (b_y - c_y) - (b_y - a_y) * (b_x - c_x) : ℚ) : ℝ)⟩

/-- `radianToDegree(radian) = (int)floor(radian * 180. / M_PI + 0.5)`. -/
noncomputable def radianToDegree (radian : ℝ) : ℤ :=
  ⌊radian * 180 / Real.pi + 0.5⌋

/-- The scroll-direction angle of feature 1:
`radianToDegree(getAngleABC(x_center, y_center, previous_x_center,
previous_y_center, previous_x_center + 0.1, previous_y_center))` — the angle
at vertex `previous_center` between the ray towards the current center and
the horizontal ray, in rounded signed degrees. -/
noncomputable def scrollAngleOf (s : HMState) (rect : NormalizedRect) : ℤ :=
  radianToDegree (getAngleABC rect.x_center rect.y_center
    s.previous_x_center s.previous_y_center
    (s.previous_x_center + 0.1) s.previous_y_center)

/-- The wrist-orientation angle of feature 3:
`radianToDegree(getAngleABC(MCP.x, MCP.y, wrist.x, wrist.y, wrist.x + 0.1,
wrist.y))` with `wrist = landmark(0)` and `MCP = landmark(9)` — the angle at
vertex `wrist` between the ray towards landmark 9 and the horizontal ray. -/
noncomputable def slideAngleOf (lms : List NormalizedLandmark) : ℤ :=
  radianToDegree (getAngleABC (landmark lms 9).x (landmark lms 9).y
    (landmark lms 0).x (landmark lms 0).y
    ((landmark lms 0).x + 0.1) (landmark lms 0).y)

/-- Feature 1 (scrolling) of `HandMouvementRecognitionCalculator::Process`:
gated on the truthiness of `previous_x_center`; fires only when the center
displacement exceeds `mouvementDistanceFactor (= 0.02) * height`; buckets the
scroll angle into the four quadrant labels, defaulting to the `"___"`
sentinel. -/
noncomputable def scrollOutput (s : HMState) (rect : NormalizedRect) : String :=
  if s.previous_x_center ≠ 0 then
    if get_Euclidean_DistanceAB rect.x_center rect.y_center
        s.previous_x_center s.previous_y_center > (0.02 : ℝ) * (rect.height : ℝ) then
      if -45 ≤ scrollAngleOf s rect ∧ scrollAngleOf s rect < 45 then "Scrolling right"
      else if 45 ≤ scrollAngleOf s rect ∧ scrollAngleOf s rect < 135 then "Scrolling up"
      else if 135 ≤ scrollAngleOf s rect ∨ scrollAngleOf s rect < -135 then "Scrolling left"
      else if -135 ≤ scrollAngleOf s rect ∧ scrollAngleOf s rect < -45 then "Scrolling down"
      else "___"
    else "___"
  else "___"

/-- Feature 2 (zooming): gated on the truthiness of
`previous_rectangle_height`; compares the current height against the previous
one with threshold `height * heightDifferenceFactor (= 0.03)`. -/
def zoomOutput (s : HMState) (rect : NormalizedRect) : String :=
  if s.previous_rectangle_height ≠ 0 then
    if rect.height < s.previous_rectangle_height - rect.height * 0.03 then "Zoom out"
    else if rect.height > s.previous_rectangle_height + rect.height * 0.03 then "Zoom in"
    else "___"
  else "___"

/-- Feature 3 (sliding): evaluated only when the incremented frame counter is
even; gated on the truthiness of `previous_angle` and on
`80 <= previous_angle <= 100`; compares the fresh wrist angle against the
previous one with `angleDifferenceTreshold = 12`. -/
noncomputable def slideOutput (previous_angle : ℚ) (counterVal : ℕ)
    (lms : List NormalizedLandmark) : String :=
  if counterVal % 2 = 0 then
    if previous_angle ≠ 0 then
      if 80 ≤ previous_angle ∧ previous_angle ≤ 100 then
        if ((slideAngleOf lms : ℤ) : ℚ) > previous_angle + 12 then "Slide left"
        else if ((slideAngleOf lms : ℤ) : ℚ) < previous_angle - 12 then "Slide right"
        else "___"
      else "___"
    else "___"
  else "___"

/-- The state left behind by one successfully processed frame:
`previous_x_center`/`previous_y_center` are overwritten with the current
center (lines 164-165), `previous_rectangle_height` with the current height
(line 184), and `previous_angle` with the fresh wrist angle only when the
incremented counter is even (line 213, inside the decimation branch). -/
noncomputable def nextState (s : HMState) (rect : NormalizedRect)
    (lms : List NormalizedLandmark) : HMState :=
  { previous_x_center := rect.x_center
    previous_y_center := rect.y_center
    previous_angle :=
      if (s.counter + 1) % 2 = 0 then ((slideAngleOf lms : ℤ) : ℚ) else s.previous_angle
    previous_rectangle_height := rect.height
    counter := s.counter + 1 }

/-- `HandMouvementRecognitionCalculator::Process`: the frame counter is
incremented first (line 112), then
`RET_CHECK_GT(landmarkList.landmark_size(), 0)` (line 129) is the only
failure path (on failure nothing but the counter has changed), then the three
features run and the history fields are updated. -/
noncomputable def hmProcess (s : HMState) (rect : NormalizedRect)
    (lms : List NormalizedLandmark) :
    HMState × Except String (String × String × String) :=
  if 0 < lms.length then
    (nextState s rect lms,
     Except.ok (scrollOutput s rect, zoomOutput s rect,
       slideOutput s.previous_angle (s.counter + 1) lms))
  else
    ({ s with counter := s.counter + 1 }, Except.error "Input landmark vector is empty.")

/-- Concrete 21-landmark list whose finger states are thumb/index/middle
`OPEN` and ring/pinky `CLOSE` (the "three fingers up" pose). -/
def exLms3 : List NormalizedLandmark :=
  [⟨0, 0⟩, ⟨0, 0⟩, ⟨1/2, 0⟩, ⟨2/5, 0⟩, ⟨3/10, 0⟩, ⟨0, 0⟩,
   ⟨0, 1/2⟩, ⟨0, 2/5⟩, ⟨0, 3/10⟩, ⟨0, 0⟩,
   ⟨0, 1/2⟩, ⟨0, 2/5⟩, ⟨0, 3/10⟩, ⟨0, 0⟩,
   ⟨0, 3/10⟩, ⟨0, 2/5⟩, ⟨0, 1/2⟩, ⟨0, 0⟩,
   ⟨0, 3/10⟩, ⟨0, 2/5⟩, ⟨0, 1/2⟩]

/-- Concrete 21-landmark list with every landmark at the origin (used as a
generic valid-length landmark input for the movement calculator). -/
def exMoveLms : List NormalizedLandmark := List.replicate 21 ⟨0, 0⟩

/-- Characterisation of one finger-state block: `OPEN` exactly when both OPEN
comparisons hold, `CLOSE` exactly when both CLOSE comparisons hold (the two
conditions are mutually exclusive because the threshold is positive), and
`UNKNOW` otherwise. -/
theorem fingerStateOf_spec (p m t : ℚ) :
    (fingerStateOf p m t = FingerState.OPEN ↔ m + 0.01 < p ∧ t + 0.01 < m) ∧
    (fingerStateOf p m t = FingerState.CLOSE ↔ p + 0.01 < m ∧ m + 0.01 < t) ∧
    (fingerStateOf p m t = FingerState.UNKNOW ↔
      ¬(m + 0.01 < p ∧ t + 0.01 < m) ∧ ¬(p + 0.01 < m ∧ m + 0.01 < t)) := by
  unfold fingerStateOf threshold closeFingerThreshold
  by_cases h1 : m + 0.01 < p ∧ t + 0.01 < m
  · have h2 : ¬(p + 0.01 < m ∧ m + 0.01 < t) := by
      rintro ⟨h2a, -⟩
      linarith [h1.1]
    simp [h1, h2]
  · by_cases h2 : p + 0.01 < m ∧ m + 0.01 < t
    · simp [h1, h2]
    · simp [h1, h2]

/-- C2: For every landmark set processed past the presence gate, each
finger's state is OPEN exactly when `coord(M) + 0.01 < coord(P)` and
`coord(T) + 0.01 < coord(M)`, CLOSED exactly when `coord(P) + 0.01 < coord(M)`
and `coord(M) + 0.01 < coord(T)`, and UNKNOWN otherwise, where the thumb uses
the x coordinate of landmarks 2, 3, 4 and the index/middle/ring/pinky fingers
use the y coordinate of landmark triplets (6,7,8), (10,11,12), (14,15,16),
(18,19,20), with the threshold fixed at 0.01 for both conditions.  (The
finger states are a function of the landmark list alone, so the
characterisation is stated for every landmark list.) -/
theorem finger_state_characterisation (lms : List NormalizedLandmark) :
    (thumbState lms = FingerState.OPEN ↔
      (landmark lms 3).x + 0.01 < (landmark lms 2).x ∧
      (landmark lms 4).x + 0.01 < (landmark lms 3).x) ∧
    (thumbState lms = FingerState.CLOSE ↔
      (landmark lms 2).x + 0.01 < (landmark lms 3).x ∧
      (landmark lms 3).x + 0.01 < (landmark lms 4).x) ∧
    (thumbState lms = FingerState.UNKNOW ↔
      ¬((landmark lms 3).x + 0.01 < (landmark lms 2).x ∧
        (landmark lms 4).x + 0.01 < (landmark lms 3).x) ∧
      ¬((landmark lms 2).x + 0.01 < (landmark lms 3).x ∧
        (landmark lms 3).x + 0.01 < (landmark lms 4).x)) ∧
    (firstFingerState lms = FingerState.OPEN ↔
      (landmark lms 7).y + 0.01 < (landmark lms 6).y ∧
      (landmark lms 8).y + 0.01 < (landmark lms 7).y) ∧
    (firstFingerState lms = FingerState.CLOSE ↔
      (landmark lms 6).y + 0.01 < (landmark lms 7).y ∧
      (landmark lms 7).y + 0.01 < (landmark lms 8).y) ∧
    (firstFingerState lms = FingerState.UNKNOW ↔
      ¬((landmark lms 7).y + 0.01 < (landmark lms 6).y ∧
        (landmark lms 8).y + 0.01 < (landmark lms 7).y) ∧
      ¬((landmark lms 6).y + 0.01 < (landmark lms 7).y ∧
        (landmark lms 7).y + 0.01 < (landmark lms 8).y)) ∧
    (secondFingerState lms = FingerState.OPEN ↔
      (landmark lms 11).y + 0.01 < (landmark lms 10).y ∧
      (landmark lms 12).y + 0.01 < (landmark lms 11).y) ∧
    (secondFingerState lms = FingerState.CLOSE ↔
      (landmark lms 10).y + 0.01 < (landmark lms 11).y ∧
      (landmark lms 11).y + 0.01 < (landmark lms 12).y) ∧
    (secondFingerState lms = FingerState.UNKNOW ↔
      ¬((landmark lms 11).y + 0.01 < (landmark lms 10).y ∧
        (landmark lms 12).y + 0.01 < (landmark lms 11).y) ∧
      ¬((landmark lms 10).y + 0.01 < (landmark lms 11).y ∧
        (landmark lms 11).y + 0.01 < (landmark lms 12).y)) ∧
    (thirdFingerState lms = FingerState.OPEN ↔
      (landmark lms 15).y + 0.01 < (landmark lms 14).y ∧
      (landmark lms 16).y + 0.01 < (landmark lms 15).y) ∧
    (thirdFingerState lms = FingerState.CLOSE ↔
      (landmark lms 14).y + 0.01 < (landmark lms 15).y ∧
      (landmark lms 15).y + 0.01 < (landmark lms 16).y) ∧
    (thirdFingerState lms = FingerState.UNKNOW ↔
      ¬((landmark lms 15).y + 0.01 < (landmark lms 14).y ∧
        (landmark lms 16).y + 0.01 < (landmark lms 15).y) ∧
      ¬((landmark lms 14).y + 0.01 < (landmark lms 15).y ∧
        (landmark lms 15).y + 0.01 < (landmark lms 16).y)) ∧
    (fourthFingerState lms = FingerState.OPEN ↔
      (landmark lms 19).y + 0.01 < (landmark lms 18).y ∧
      (landmark lms 20).y + 0.01 < (landmark lms 19).y) ∧
    (fourthFingerState lms = FingerState.CLOSE ↔
      (landmark lms 18).y + 0.01 < (landmark lms 19).y ∧
      (landmark lms 19).y + 0.01 < (landmark lms 20).y) ∧
    (fourthFingerState lms = FingerState.UNKNOW ↔
      ¬((landmark lms 19).y + 0.01 < (landmark lms 18).y ∧
        (landmark lms 20).y + 0.01 < (landmark lms 19).y) ∧
      ¬((landmark lms 18).y + 0.01 < (landmark lms 19).y ∧
        (landmark lms 19).y + 0.01 < (landmark lms 20).y)) :=
  ⟨(fingerStateOf_spec _ _ _).1, (fingerStateOf_spec _ _ _).2.1, (fingerStateOf_spec _ _ _).2.2,
   (fingerStateOf_spec _ _ _).1, (fingerStateOf_spec _ _ _).2.1, (fingerStateOf_spec _ _ _).2.2,
   (fingerStateOf_spec _ _ _).1, (fingerStateOf_spec _ _ _).2.1, (fingerStateOf_spec _ _ _).2.2,
   (fingerStateOf_spec _ _ _).1, (fingerStateOf_spec _ _ _).2.1, (fingerStateOf_spec _ _ _).2.2,
   (fingerStateOf_spec _ _ _).1, (fingerStateOf_spec _ _ _).2.1, (fingerStateOf_spec _ _ _).2.2⟩

/-- C1: For every input frame whose bounding rectangle has `width < 0.01` or
`height < 0.01`, the static-gesture output is the absent sentinel `"___"` and
finger-state/gesture classification is skipped entirely, so the output does
not depend on the landmark list (which need not even be valid). -/
theorem hgr_presence_gate_absent (rect : NormalizedRect)
    (lms lms2 : List NormalizedLandmark) (h : rect.width < 0.01 ∨ rect.height < 0.01) :
    hgrProcess rect lms = Except.ok "___" ∧ hgrProcess rect lms = hgrProcess rect lms2 := by
  unfold hgrProcess
  rw [if_pos h, if_pos h]
  exact ⟨rfl, rfl⟩

/-- Witness for C1: a rectangle of width `1/200 < 0.01` short-circuits to
`"___"` and the result is the same for an empty and a junk landmark list. -/
theorem hgr_presence_gate_absent_witness :
    ((1/200 : ℚ) < 0.01 ∨ (1/2 : ℚ) < 0.01) ∧
    (hgrProcess ⟨1/2, 1/2, 1/200, 1/2⟩ [] = Except.ok "___" ∧
     hgrProcess ⟨1/2, 1/2, 1/200, 1/2⟩ [] = hgrProcess ⟨1/2, 1/2, 1/200, 1/2⟩ [⟨1, 1⟩]) :=
  ⟨Or.inl (by norm_num),
   hgr_presence_gate_absent ⟨1/2, 1/2, 1/200, 1/2⟩ [] [⟨1, 1⟩] (Or.inl (by norm_num))⟩

/-- Helper: an if-then-else of two strings drawn from a list is in the
list. -/
theorem ite_mem_of {c : Prop} [Decidable c] {a b : String} {l : List String}
    (ha : a ∈ l) (hb : b ∈ l) : (if c then a else b) ∈ l := by
  split
  · exact ha
  · exact hb

/-- C3 counterexample: on a concrete landmark set whose finger states are
thumb/index/middle OPEN and ring/pinky CLOSED, the classifier returns the
string `"TREE"` (the source's spelling), not `"THREE"` as the claim states. -/
theorem three_spelled_tree_cex :
    thumbState exLms3 = FingerState.OPEN ∧ firstFingerState exLms3 = FingerState.OPEN ∧
    secondFingerState exLms3 = FingerState.OPEN ∧ thirdFingerState exLms3 = FingerState.CLOSE ∧
    fourthFingerState exLms3 = FingerState.CLOSE ∧
    recognizedHandGesture exLms3 = "TREE" ∧ recognizedHandGesture exLms3 ≠ "THREE" := by
  refine ⟨?_, ?_, ?_, ?_, ?_, ?_, ?_⟩ <;>
    · norm_num [recognizedHandGesture, thumbState, firstFingerState, secondFingerState,
        thirdFingerState, fourthFingerState, fingerStateOf, threshold, closeFingerThreshold,
        landmark, exLms3]
      try decide

/-- C3 amended: for every finger-state tuple with thumb, index and middle
OPEN and ring and pinky CLOSED, the static-gesture classifier returns the
string `"TREE"` (the source's spelling of the three-finger gesture), and
every static-gesture output is drawn from the fixed vocabulary `"FIVE"`,
`"FOUR"`, `"TREE"`, `"TWO"`, `"ONE"`, `"YEAH"`, `"ROCK"`, `"SPIDERMAN"`,
`"FIST"`, `"OK"` or the `"___"` sentinel. -/
theorem static_gesture_tree_and_vocabulary (lms : List NormalizedLandmark) :
    (thumbState lms = FingerState.OPEN → firstFingerState lms = FingerState.OPEN →
     secondFingerState lms = FingerState.OPEN → thirdFingerState lms = FingerState.CLOSE →
     fourthFingerState lms = FingerState.CLOSE → recognizedHandGesture lms = "TREE") ∧
    recognizedHandGesture lms ∈
      ["FIVE", "FOUR", "TREE", "TWO", "ONE", "YEAH", "ROCK", "SPIDERMAN", "FIST", "OK", "___"] := by
  constructor
  · intro h1 h2 h3 h4 h5
    unfold recognizedHandGesture
    rw [h1, h2, h3, h4, h5]
    simp
  · unfold recognizedHandGesture
    refine ite_mem_of (by decide) (ite_mem_of (by decide) (ite_mem_of (by decide)
      (ite_mem_of (by decide) (ite_mem_of (by decide) (ite_mem_of (by decide)
      (ite_mem_of (by decide) (ite_mem_of (by decide) (ite_mem_of (by decide)
      (ite_mem_of (by decide) (by decide))))))))))

/-- Witness for C3 (amended): the concrete three-finger pose yields `"TREE"`,
a member of the vocabulary. -/
theorem static_gesture_tree_and_vocabulary_witness :
    recognizedHandGesture exLms3 = "TREE" ∧
    recognizedHandGesture exLms3 ∈
      ["FIVE", "FOUR", "TREE", "TWO", "ONE", "YEAH", "ROCK", "SPIDERMAN", "FIST", "OK", "___"] :=
  ⟨(static_gesture_tree_and_vocabulary exLms3).1
      (by norm_num [thumbState, fingerStateOf, threshold, closeFingerThreshold, landmark, exLms3])
      (by norm_num [firstFingerState, fingerStateOf, threshold, closeFingerThreshold, landmark,
        exLms3])
      (by norm_num [secondFingerState, fingerStateOf, threshold, closeFingerThreshold, landmark,
        exLms3])
      (by norm_num [thirdFingerState, fingerStateOf, threshold, closeFingerThreshold, landmark,
        exLms3])
      (by norm_num [fourthFingerState, fingerStateOf, threshold, closeFingerThreshold, landmark,
        exLms3]),
   (static_gesture_tree_and_vocabulary exLms3).2⟩

/-- C4 counterexample: a frame with only one landmark (below the skeleton
size 21) and a rectangle that passes the presence gate does NOT fail — the
source's `RET_CHECK_GT(landmark_size(), 0)` only rejects an empty list. -/
theorem malformed_input_count_one_cex :
    ([(⟨0, 0⟩ : NormalizedLandmark)].length < 21) ∧
    ¬((1/2 : ℚ) < 0.01 ∨ (1/2 : ℚ) < 0.01) ∧
    isError (hgrProcess ⟨1/2, 1/2, 1/2, 1/2⟩ [⟨0, 0⟩]) = false := by
  refine ⟨by decide, by norm_num, ?_⟩
  norm_num [hgrProcess, isError, recognizedHandGesture, thumbState, firstFingerState,
    secondFingerState, thirdFingerState, fourthFingerState, fingerStateOf, threshold,
    closeFingerThreshold, landmark]

/-- C4 amended: a frame fails with a surfaced error exactly when the landmark
list is empty (count 0), not at any count below 21: the gesture calculator
fails iff the list is empty and the presence gate allows processing (when the
gate rejects, the landmark list is never consulted and no failure occurs),
and the movement calculator, which has no presence gate, fails iff the list
is empty. -/
theorem malformed_input_empty_only (rect : NormalizedRect) (s : HMState)
    (lms : List NormalizedLandmark) :
    (¬(rect.width < 0.01 ∨ rect.height < 0.01) →
      (isError (hgrProcess rect lms) = true ↔ lms.length = 0)) ∧
    ((rect.width < 0.01 ∨ rect.height < 0.01) → isError (hgrProcess rect lms) = false) ∧
    (isError (hmProcess s rect lms).2 = true ↔ lms.length = 0) := by
  refine ⟨?_, ?_, ?_⟩
  · intro hg
    unfold hgrProcess
    rw [if_neg hg]
    by_cases hlen : 0 < lms.length
    · rw [if_pos hlen]
      refine iff_of_false ?_ (by omega)
      simp [isError]
    · rw [if_neg hlen]
      refine iff_of_true rfl (by omega)
  · intro hg
    unfold hgrProcess
    rw [if_pos hg]
    rfl
  · unfold hmProcess
    by_cases hlen : 0 < lms.length
    · rw [if_pos hlen]
      refine iff_of_false ?_ (by omega)
      simp [isError]
    · rw [if_neg hlen]
      refine iff_of_true rfl (by omega)

/-- Witness for C4 (amended): with a gate-passing rectangle, the empty
landmark list is exactly the failing case, for both calculators. -/
theorem malformed_input_empty_only_witness :
    (isError (hgrProcess ⟨1/2, 1/2, 1/2, 1/2⟩ ([] : List NormalizedLandmark)) = true ↔
      ([] : List NormalizedLandmark).length = 0) ∧
    isError (hmProcess freshState ⟨1/2, 1/2, 1/2, 1/2⟩ []).2 = true :=
  ⟨(malformed_input_empty_only ⟨1/2, 1/2, 1/2, 1/2⟩ freshState []).1 (by norm_num),
   (malformed_input_empty_only ⟨1/2, 1/2, 1/2, 1/2⟩ freshState []).2.2.mpr rfl⟩

/-- C5 counterexample: after one successfully processed frame of a fresh
session (odd counter, so slide is skipped), the stored center and height are
set while the stored wrist angle is still the unset value `0` — the reachable
state is neither all-unset nor all-set. -/
theorem history_partial_after_first_frame_cex :
    ((hmProcess freshState ⟨1/2, 1/2, 1/5, 1/2⟩ exMoveLms).1.previous_x_center ≠ 0 ∧
     (hmProcess freshState ⟨1/2, 1/2, 1/5, 1/2⟩ exMoveLms).1.previous_y_center ≠ 0 ∧
     (hmProcess freshState ⟨1/2, 1/2, 1/5, 1/2⟩ exMoveLms).1.previous_rectangle_height ≠ 0) ∧
    (hmProcess freshState ⟨1/2, 1/2, 1/5, 1/2⟩ exMoveLms).1.previous_angle = 0 := by
  refine ⟨⟨?_, ?_, ?_⟩, rfl⟩ <;> norm_num [hmProcess, nextState, freshState, exMoveLms]

/-- C5 amended: on every successfully processed frame the stored center and
rectangle height are overwritten with the current frame's values and the
counter is incremented, while the stored wrist angle is overwritten (with the
fresh wrist angle) only when the incremented counter is even; consequently
after an odd-counter first frame the center and height are set but the wrist
angle is still unset, so the all-unset-or-all-set invariant does not hold. -/
theorem history_update_discipline (s : HMState) (rect : NormalizedRect)
    (lms : List NormalizedLandmark) (hlen : 0 < lms.length) :
    (hmProcess s rect lms).1.previous_x_center = rect.x_center ∧
    (hmProcess s rect lms).1.previous_y_center = rect.y_center ∧
    (hmProcess s rect lms).1.previous_rectangle_height = rect.height ∧
    (hmProcess s rect lms).1.counter = s.counter + 1 ∧
    ((s.counter + 1) % 2 = 0 →
      (hmProcess s rect lms).1.previous_angle = ((slideAngleOf lms : ℤ) : ℚ)) ∧
    ((s.counter + 1) % 2 ≠ 0 →
      (hmProcess s rect lms).1.previous_angle = s.previous_angle) := by
  unfold hmProcess nextState
  rw [if_pos hlen]
  refine ⟨rfl, rfl, rfl, rfl, ?_, ?_⟩
  · intro h
    simp [h]
  · intro h
    simp [h]

/-- Witness for C5 (amended): a frame at counter value 1 (incremented to 2,
even) overwrites all three history fields, the wrist angle included. -/
theorem history_update_discipline_witness :
    0 < exMoveLms.length ∧
    ((hmProcess ⟨1/4, 1/4, 90, 1/4, 1⟩ ⟨3/5, 2/5, 1/5, 3/10⟩ exMoveLms).1.previous_x_center =
        3/5 ∧
     (hmProcess ⟨1/4, 1/4, 90, 1/4, 1⟩ ⟨3/5, 2/5, 1/5, 3/10⟩ exMoveLms).1.previous_y_center =
        2/5 ∧
     (hmProcess ⟨1/4, 1/4, 90, 1/4, 1⟩ ⟨3/5, 2/5, 1/5, 3/10⟩
        exMoveLms).1.previous_rectangle_height = 3/10 ∧
     (hmProcess ⟨1/4, 1/4, 90, 1/4, 1⟩ ⟨3/5, 2/5, 1/5, 3/10⟩ exMoveLms).1.counter = 1 + 1 ∧
     ((1 + 1) % 2 = 0 →
       (hmProcess ⟨1/4, 1/4, 90, 1/4, 1⟩ ⟨3/5, 2/5, 1/5, 3/10⟩ exMoveLms).1.previous_angle =
         ((slideAngleOf exMoveLms : ℤ) : ℚ)) ∧
     ((1 + 1) % 2 ≠ 0 →
       (hmProcess ⟨1/4, 1/4, 90, 1/4, 1⟩ ⟨3/5, 2/5, 1/5, 3/10⟩ exMoveLms).1.previous_angle =
         90)) :=
  ⟨by decide,
   history_update_discipline ⟨1/4, 1/4, 90, 1/4, 1⟩ ⟨3/5, 2/5, 1/5, 3/10⟩ exMoveLms (by decide)⟩

/-- C6 counterexample: on the first frame of a fresh session the three
outputs are the `"___"` sentinel, but afterwards the history is NOT fully
populated — the stored wrist angle is still the unset value `0` (the first
frame's counter is odd, so slide evaluation was skipped). -/
theorem first_frame_history_not_fully_populated_cex :
    (hmProcess freshState ⟨2/5, 3/10, 1/4, 3/5⟩ exMoveLms).2 =
      Except.ok ("___", "___", "___") ∧
    (hmProcess freshState ⟨2/5, 3/10, 1/4, 3/5⟩ exMoveLms).1.previous_angle = 0 :=
  ⟨rfl, rfl⟩

/-- C6 amended: on the first processed frame of a fresh session the
MovementTracker outputs scroll = zoom = slide = `"___"`, and after that frame
the previous center and previous rectangle height hold the frame's rectangle
values, while the previous wrist angle remains unset (`0`) — it is first
populated by an even-counter frame. -/
theorem first_frame_outputs_none (rect : NormalizedRect) (lms : List NormalizedLandmark)
    (hlen : 0 < lms.length) :
    (hmProcess freshState rect lms).2 = Except.ok ("___", "___", "___") ∧
    (hmProcess freshState rect lms).1.previous_x_center = rect.x_center ∧
    (hmProcess freshState rect lms).1.previous_y_center = rect.y_center ∧
    (hmProcess freshState rect lms).1.previous_rectangle_height = rect.height ∧
    (hmProcess freshState rect lms).1.previous_angle = 0 := by
  unfold hmProcess nextState scrollOutput zoomOutput slideOutput freshState
  rw [if_pos hlen]
  norm_num

/-- Witness for C6 (amended): concrete first frame of a fresh session. -/
theorem first_frame_outputs_none_witness :
    0 < exMoveLms.length ∧
    ((hmProcess freshState ⟨1/2, 2/5, 1/5, 1/2⟩ exMoveLms).2 =
        Except.ok ("___", "___", "___") ∧
     (hmProcess freshState ⟨1/2, 2/5, 1/5, 1/2⟩ exMoveLms).1.previous_x_center = 1/2 ∧
     (hmProcess freshState ⟨1/2, 2/5, 1/5, 1/2⟩ exMoveLms).1.previous_y_center = 2/5 ∧
     (hmProcess freshState ⟨1/2, 2/5, 1/5, 1/2⟩ exMoveLms).1.previous_rectangle_height = 1/2 ∧
     (hmProcess freshState ⟨1/2, 2/5, 1/5, 1/2⟩ exMoveLms).1.previous_angle = 0) :=
  ⟨by decide, first_frame_outputs_none ⟨1/2, 2/5, 1/5, 1/2⟩ exMoveLms (by decide)⟩

/-- C7: For every frame with a previous center in history (nonzero stored
x-center): if the Euclidean distance from the current to the previous
rectangle center is strictly greater than `0.02` times the current rectangle
height, the scroll output is `"Scrolling right"` for a scroll angle in
`[-45,45)`, `"Scrolling up"` for `[45,135)`, `"Scrolling left"` for
`[135,180]` or `[-180,-135)`, and `"Scrolling down"` for `[-135,-45)`, where
the scroll angle is the signed rounded-to-integer degree angle at vertex
`previous_center` between the ray to the current center and the horizontal
ray (`scrollAngleOf`); otherwise (displacement at or below the threshold) the
scroll output is `"___"`; and in both cases the stored previous center is set
to the current center afterwards. -/
theorem scroll_characterisation (s : HMState) (rect : NormalizedRect)
    (lms : List NormalizedLandmark) (hlen : 0 < lms.length)
    (hpx : s.previous_x_center ≠ 0) :
    (hmProcess s rect lms).1.previous_x_center = rect.x_center ∧
    (hmProcess s rect lms).1.previous_y_center = rect.y_center ∧
    (hmProcess s rect lms).2 =
      Except.ok (scrollOutput s rect, zoomOutput s rect,
        slideOutput s.previous_angle (s.counter + 1) lms) ∧
    (¬(get_Euclidean_DistanceAB rect.x_center rect.y_center s.previous_x_center
        s.previous_y_center > (0.02 : ℝ) * (rect.height : ℝ)) →
      scrollOutput s rect = "___") ∧
    (get_Euclidean_DistanceAB rect.x_center rect.y_center s.previous_x_center
        s.previous_y_center > (0.02 : ℝ) * (rect.height : ℝ) →
      ((-45 ≤ scrollAngleOf s rect ∧ scrollAngleOf s rect < 45 →
         scrollOutput s rect = "Scrolling right") ∧
       (45 ≤ scrollAngleOf s rect ∧ scrollAngleOf s rect < 135 →
         scrollOutput s rect = "Scrolling up") ∧
       ((135 ≤ scrollAngleOf s rect ∧ scrollAngleOf s rect ≤ 180) ∨
          (-180 ≤ scrollAngleOf s rect ∧ scrollAngleOf s rect < -135) →
         scrollOutput s rect = "Scrolling left") ∧
       (-135 ≤ scrollAngleOf s rect ∧ scrollAngleOf s rect < -45 →
         scrollOutput s rect = "Scrolling down"))) := by
  refine ⟨?_, ?_, ?_, ?_, ?_⟩
  · simp [hmProcess, nextState, hlen]
  · simp [hmProcess, nextState, hlen]
  · simp [hmProcess, hlen]
  · intro hd
    unfold scrollOutput
    rw [if_pos hpx, if_neg hd]
  · intro hd
    refine ⟨?_, ?_, ?_, ?_⟩
    · intro hb
      unfold scrollOutput
      rw [if_pos hpx, if_pos hd, if_pos hb]
    · intro hb
      unfold scrollOutput
      rw [if_pos hpx, if_pos hd, if_neg (by omega), if_pos hb]
    · intro hb
      unfold scrollOutput
      rw [if_pos hpx, if_pos hd, if_neg (by omega), if_neg (by omega), if_pos (by omega)]
    · intro hb
      unfold scrollOutput
      rw [if_pos hpx, if_pos hd, if_neg (by omega), if_neg (by omega), if_neg (by omega),
        if_pos hb]

/-- Witness for C7: a frame with history whose displacement is exactly the
boundary value `0.01` at current height `0.5` (the spec's own example). -/
theorem scroll_characterisation_witness :
    0 < exMoveLms.length ∧ (3/10 : ℚ) ≠ 0 ∧
    ((hmProcess ⟨3/10, 2/5, 0, 0, 4⟩ ⟨31/100, 2/5, 1/5, 1/2⟩ exMoveLms).1.previous_x_center =
        31/100 ∧
     (hmProcess ⟨3/10, 2/5, 0, 0, 4⟩ ⟨31/100, 2/5, 1/5, 1/2⟩ exMoveLms).1.previous_y_center =
        2/5 ∧
     (hmProcess ⟨3/10, 2/5, 0, 0, 4⟩ ⟨31/100, 2/5, 1/5, 1/2⟩ exMoveLms).2 =
       Except.ok (scrollOutput ⟨3/10, 2/5, 0, 0, 4⟩ ⟨31/100, 2/5, 1/5, 1/2⟩,
         zoomOutput ⟨3/10, 2/5, 0, 0, 4⟩ ⟨31/100, 2/5, 1/5, 1/2⟩,
         slideOutput 0 (4 + 1) exMoveLms) ∧
     (¬(get_Euclidean_DistanceAB (31/100) (2/5) (3/10) (2/5) >
         (0.02 : ℝ) * ((1/2 : ℚ) : ℝ)) →
       scrollOutput ⟨3/10, 2/5, 0, 0, 4⟩ ⟨31/100, 2/5, 1/5, 1/2⟩ = "___") ∧
     (get_Euclidean_DistanceAB (31/100) (2/5) (3/10) (2/5) >
         (0.02 : ℝ) * ((1/2 : ℚ) : ℝ) →
       ((-45 ≤ scrollAngleOf ⟨3/10, 2/5, 0, 0, 4⟩ ⟨31/100, 2/5, 1/5, 1/2⟩ ∧
           scrollAngleOf ⟨3/10, 2/5, 0, 0, 4⟩ ⟨31/100, 2/5, 1/5, 1/2⟩ < 45 →
          scrollOutput ⟨3/10, 2/5, 0, 0, 4⟩ ⟨31/100, 2/5, 1/5, 1/2⟩ = "Scrolling right") ∧
        (45 ≤ scrollAngleOf ⟨3/10, 2/5, 0, 0, 4⟩ ⟨31/100, 2/5, 1/5, 1/2⟩ ∧
           scrollAngleOf ⟨3/10, 2/5, 0, 0, 4⟩ ⟨31/100, 2/5, 1/5, 1/2⟩ < 135 →
          scrollOutput ⟨3/10, 2/5, 0, 0, 4⟩ ⟨31/100, 2/5, 1/5, 1/2⟩ = "Scrolling up") ∧
        ((135 ≤ scrollAngleOf ⟨3/10, 2/5, 0, 0, 4⟩ ⟨31/100, 2/5, 1/5, 1/2⟩ ∧
            scrollAngleOf ⟨3/10, 2/5, 0, 0, 4⟩ ⟨31/100, 2/5, 1/5, 1/2⟩ ≤ 180) ∨
           (-180 ≤ scrollAngleOf ⟨3/10, 2/5, 0, 0, 4⟩ ⟨31/100, 2/5, 1/5, 1/2⟩ ∧
            scrollAngleOf ⟨3/10, 2/5, 0, 0, 4⟩ ⟨31/100, 2/5, 1/5, 1/2⟩ < -135) →
          scrollOutput ⟨3/10, 2/5, 0, 0, 4⟩ ⟨31/100, 2/5, 1/5, 1/2⟩ = "Scrolling left") ∧
        (-135 ≤ scrollAngleOf ⟨3/10, 2/5, 0, 0, 4⟩ ⟨31/100, 2/5, 1/5, 1/2⟩ ∧
           scrollAngleOf ⟨3/10, 2/5, 0, 0, 4⟩ ⟨31/100, 2/5, 1/5, 1/2⟩ < -45 →
          scrollOutput ⟨3/10, 2/5, 0, 0, 4⟩ ⟨31/100, 2/5, 1/5, 1/2⟩ = "Scrolling down")))) :=
  ⟨by decide, by norm_num,
   scroll_characterisation ⟨3/10, 2/5, 0, 0, 4⟩ ⟨31/100, 2/5, 1/5, 1/2⟩ exMoveLms
     (by decide) (by norm_num)⟩

/-- C8: For every frame with a previous rectangle height in history (nonzero
stored height) and a normalized (nonnegative) current height, with threshold
`0.03` times the current height: the zoom output is `"Zoom out"` when
`current_height < previous_height - threshold`, `"Zoom in"` when
`current_height > previous_height + threshold`, and `"___"` otherwise; and
the stored previous height is set to the current height afterwards in all
cases. -/
theorem zoom_characterisation (s : HMState) (rect : NormalizedRect)
    (lms : List NormalizedLandmark) (hlen : 0 < lms.length)
    (hh : 0 ≤ rect.height) (hph : s.previous_rectangle_height ≠ 0) :
    (rect.height < s.previous_rectangle_height - 0.03 * rect.height →
      zoomOutput s rect = "Zoom out") ∧
    (rect.height > s.previous_rectangle_height + 0.03 * rect.height →
      zoomOutput s rect = "Zoom in") ∧
    (¬(rect.height < s.previous_rectangle_height - 0.03 * rect.height) ∧
     ¬(rect.height > s.previous_rectangle_height + 0.03 * rect.height) →
      zoomOutput s rect = "___") ∧
    (hmProcess s rect lms).1.previous_rectangle_height = rect.height := by
  refine ⟨?_, ?_, ?_, ?_⟩
  · intro h
    unfold zoomOutput
    rw [if_pos hph, if_pos (by linarith)]
  · intro h
    unfold zoomOutput
    rw [if_pos hph, if_neg (by linarith), if_pos (by linarith)]
  · rintro ⟨h1, h2⟩
    unfold zoomOutput
    rw [if_pos hph, if_neg (by linarith), if_neg (by linarith)]
  · simp [hmProcess, nextState, hlen]

/-- Witness for C8: previous height `1/2`, current height `2/3` — a growth
beyond the threshold, classified `"Zoom in"`, with the stored height updated. -/
theorem zoom_characterisation_witness :
    0 < exMoveLms.length ∧ (0 : ℚ) ≤ 2/3 ∧ (1/2 : ℚ) ≠ 0 ∧
    (((2/3 : ℚ) < 1/2 - 0.03 * (2/3) →
       zoomOutput ⟨0, 0, 0, 1/2, 0⟩ ⟨1/2, 1/2, 1/5, 2/3⟩ = "Zoom out") ∧
     ((2/3 : ℚ) > 1/2 + 0.03 * (2/3) →
       zoomOutput ⟨0, 0, 0, 1/2, 0⟩ ⟨1/2, 1/2, 1/5, 2/3⟩ = "Zoom in") ∧
     (¬((2/3 : ℚ) < 1/2 - 0.03 * (2/3)) ∧ ¬((2/3 : ℚ) > 1/2 + 0.03 * (2/3)) →
       zoomOutput ⟨0, 0, 0, 1/2, 0⟩ ⟨1/2, 1/2, 1/5, 2/3⟩ = "___") ∧
     (hmProcess ⟨0, 0, 0, 1/2, 0⟩ ⟨1/2, 1/2, 1/5, 2/3⟩
        exMoveLms).1.previous_rectangle_height = 2/3) :=
  ⟨by decide, by norm_num, by norm_num,
   zoom_characterisation ⟨0, 0, 0, 1/2, 0⟩ ⟨1/2, 1/2, 1/5, 2/3⟩ exMoveLms (by decide)
     (by norm_num) (by norm_num)⟩

/-- C9: Slide is evaluated only on frames where the incremented frame counter
is even; on such frames the stored previous angle is overwritten with the
fresh wrist-orientation angle (`slideAngleOf`: the signed rounded degree
angle at vertex wrist between the ray to landmark 9 and the horizontal ray),
and if the previous angle exists (nonzero) and lies within `[80,100]`, the
output is `"Slide left"` when the fresh angle exceeds the previous angle by
more than 12 degrees, `"Slide right"` when it is more than 12 degrees below
it, and `"___"` otherwise — in particular any previous angle outside
`[80,100]` (such as 50) yields `"___"` regardless of the delta; odd frames
output `"___"` and leave the orientation history untouched. -/
theorem slide_characterisation (s : HMState) (rect : NormalizedRect)
    (lms : List NormalizedLandmark) (hlen : 0 < lms.length) :
    ((s.counter + 1) % 2 ≠ 0 →
      slideOutput s.previous_angle (s.counter + 1) lms = "___" ∧
      (hmProcess s rect lms).1.previous_angle = s.previous_angle) ∧
    ((s.counter + 1) % 2 = 0 →
      (hmProcess s rect lms).1.previous_angle = ((slideAngleOf lms : ℤ) : ℚ) ∧
      (¬(80 ≤ s.previous_angle ∧ s.previous_angle ≤ 100) →
        slideOutput s.previous_angle (s.counter + 1) lms = "___") ∧
      (s.previous_angle ≠ 0 → 80 ≤ s.previous_angle → s.previous_angle ≤ 100 →
        ((((slideAngleOf lms : ℤ) : ℚ) > s.previous_angle + 12 →
           slideOutput s.previous_angle (s.counter + 1) lms = "Slide left") ∧
         (((slideAngleOf lms : ℤ) : ℚ) < s.previous_angle - 12 →
           slideOutput s.previous_angle (s.counter + 1) lms = "Slide right") ∧
         (¬(((slideAngleOf lms : ℤ) : ℚ) > s.previous_angle + 12) ∧
          ¬(((slideAngleOf lms : ℤ) : ℚ) < s.previous_angle - 12) →
           slideOutput s.previous_angle (s.counter + 1) lms = "___")))) := by
  constructor
  · intro hodd
    constructor
    · unfold slideOutput
      rw [if_neg hodd]
    · simp [hmProcess, nextState, hlen, hodd]
  · intro heven
    refine ⟨?_, ?_, ?_⟩
    · simp [hmProcess, nextState, hlen, heven]
    · intro hgate
      unfold slideOutput
      rw [if_pos heven]
      by_cases h0 : s.previous_angle ≠ 0
      · rw [if_pos h0, if_neg hgate]
      · rw [if_neg h0]
    · intro h0 h80 h100
      refine ⟨?_, ?_, ?_⟩
      · intro hgt
        unfold slideOutput
        rw [if_pos heven, if_pos h0, if_pos ⟨h80, h100⟩, if_pos hgt]
      · intro hlt
        unfold slideOutput
        rw [if_pos heven, if_pos h0, if_pos ⟨h80, h100⟩, if_neg (by linarith), if_pos hlt]
      · rintro ⟨hn1, hn2⟩
        unfold slideOutput
        rw [if_pos heven, if_pos h0, if_pos ⟨h80, h100⟩, if_neg hn1, if_neg hn2]

/-- Witness for C9: an even frame (counter 1 incremented to 2) with previous
angle 50, the spec's gating example — the out-of-range gate applies. -/
theorem slide_characterisation_witness :
    0 < exMoveLms.length ∧
    (((1 + 1) % 2 ≠ 0 →
       slideOutput 50 (1 + 1) exMoveLms = "___" ∧
       (hmProcess ⟨0, 0, 50, 0, 1⟩ ⟨1/2, 1/2, 1/5, 1/2⟩ exMoveLms).1.previous_angle = 50) ∧
     ((1 + 1) % 2 = 0 →
       (hmProcess ⟨0, 0, 50, 0, 1⟩ ⟨1/2, 1/2, 1/5, 1/2⟩ exMoveLms).1.previous_angle =
         ((slideAngleOf exMoveLms : ℤ) : ℚ) ∧
       (¬((80 : ℚ) ≤ 50 ∧ (50 : ℚ) ≤ 100) → slideOutput 50 (1 + 1) exMoveLms = "___") ∧
       ((50 : ℚ) ≠ 0 → (80 : ℚ) ≤ 50 → (50 : ℚ) ≤ 100 →
         ((((slideAngleOf exMoveLms : ℤ) : ℚ) > 50 + 12 →
            slideOutput 50 (1 + 1) exMoveLms = "Slide left") ∧
          (((slideAngleOf exMoveLms : ℤ) : ℚ) < 50 - 12 →
            slideOutput 50 (1 + 1) exMoveLms = "Slide right") ∧
          (¬(((slideAngleOf exMoveLms : ℤ) : ℚ) > 50 + 12) ∧
           ¬(((slideAngleOf exMoveLms : ℤ) : ℚ) < 50 - 12) →
            slideOutput 50 (1 + 1) exMoveLms = "___"))))) :=
  ⟨by decide,
   slide_characterisation ⟨0, 0, 50, 0, 1⟩ ⟨1/2, 1/2, 1/5, 1/2⟩ exMoveLms (by decide)⟩

/-- C10 (implicit): the presence of movement history is decided by the
numeric truthiness of a single stored scalar, so a stored value equal to `0`
is indistinguishable from "no history": whenever the stored previous x-center
equals 0 the scroll output is `"___"` (whatever the stored previous y-center
is — it is never consulted for presence), whenever the stored previous
rectangle height equals 0 the zoom output is `"___"`, and on every evaluated
(even-counter) frame whose stored previous wrist angle equals 0 the slide
output is `"___"`. -/
theorem truthiness_gates (s : HMState) (rect : NormalizedRect)
    (lms : List NormalizedLandmark) :
    (s.previous_x_center = 0 → scrollOutput s rect = "___") ∧
    (s.previous_rectangle_height = 0 → zoomOutput s rect = "___") ∧
    ((s.counter + 1) % 2 = 0 → s.previous_angle = 0 →
      slideOutput s.previous_angle (s.counter + 1) lms = "___") := by
  refine ⟨?_, ?_, ?_⟩
  · intro h
    unfold scrollOutput
    rw [if_neg (by simp [h])]
  · intro h
    unfold zoomOutput
    rw [if_neg (by simp [h])]
  · intro he h0
    unfold slideOutput
    rw [if_pos he, if_neg (by simp [h0])]

/-- Witness for C10: a state with zero stored x-center (but nonzero stored
y-center), zero stored height and zero stored angle on an even frame — all
three outputs are the sentinel. -/
theorem truthiness_gates_witness :
    scrollOutput ⟨0, 7/10, 0, 0, 3⟩ ⟨1/2, 1/2, 1/5, 1/2⟩ = "___" ∧
    zoomOutput ⟨0, 7/10, 0, 0, 3⟩ ⟨1/2, 1/2, 1/5, 1/2⟩ = "___" ∧
    slideOutput 0 (3 + 1) exMoveLms = "___" :=
  ⟨(truthiness_gates ⟨0, 7/10, 0, 0, 3⟩ ⟨1/2, 1/2, 1/5, 1/2⟩ exMoveLms).1 rfl,
   (truthiness_gates ⟨0, 7/10, 0, 0, 3⟩ ⟨1/2, 1/2, 1/5, 1/2⟩ exMoveLms).2.1 rfl,
   (truthiness_gates ⟨0, 7/10, 0, 0, 3⟩ ⟨1/2, 1/2, 1/5, 1/2⟩ exMoveLms).2.2 (by decide) rfl⟩

end Mediapipe
